import Mathlib

/-!
Shallow embedding of `src/server.js` (BrowserBaba-admin): an Express relay
exposing three routes (`POST /upload`, `DELETE /delete/:public_id`,
`GET /images`) that forward to the Cloudinary SDK.

Each route handler is embedded as a pure Lean function.  The outcome of the
single remote provider call a handler makes is passed in as an
`Except JsError _` parameter (JS exceptions expose only `err.message` to the
handlers, so an error is modelled by its message).  The effects a handler
produces — the HTTP response, the provider calls it issued, the resulting
local filesystem state, and the `console.error` log — are returned in an
effects record so theorems can speak about all of them.
-/

/-- JSON values, as produced by the server's `res.json` serialisation and by
the provider's responses. -/
inductive Json where
  | null : Json
  | str : String → Json
  | num : Int → Json
  | arr : List Json → Json
  | obj : List (String × Json) → Json
deriving Repr

/-- Field lookup in a JSON object (`none` on non-objects or missing keys). -/
def Json.lookup : Json → String → Option Json
  | .obj fields, k => List.lookup k fields
  | _, _ => none

/-- The keys of a JSON object, in order (`[]` on non-objects). -/
def Json.keys : Json → List String
  | .obj fields => fields.map Prod.fst
  | _ => []

/-- Length of a JSON array (`none` on non-arrays). -/
def Json.arrLen : Json → Option Nat
  | .arr xs => some xs.length
  | _ => none

/-- An HTTP response: status code and JSON body.  Express's `res.json(x)`
without an explicit status sends 200. -/
structure HttpResponse where
  status : Nat
  body : Json
deriving Repr

/-- A JS exception as observed by the handlers: every catch block uses only
`err.message`. -/
structure JsError where
  message : String
deriving Repr, DecidableEq

/-- `const FOLDER = process.env.FOLDER_NAME || "portfolio-gallery"`
(src/server.js line 23).  JS `||` falls back on any falsy value, so both an
unset `FOLDER_NAME` and the empty string yield the default. -/
def FOLDER (envFolderName : Option String) : String :=
  match envFolderName with
  | some s => if s = "" then "portfolio-gallery" else s
  | none => "portfolio-gallery"

/-- The file staged by the multer middleware (`upload.single("image")`):
the fields of `req.file` the handler reads, plus the original name. -/
structure UploadedFile where
  path : String
  originalname : String
deriving Repr, DecidableEq

/-- The part of the upload request the handler inspects: `req.file`, which is
absent when the multipart form carried no `image` file part. -/
structure UploadReq where
  file : Option UploadedFile
deriving Repr, DecidableEq

/-- The fields of `cloudinary.uploader.upload`'s resolved value that the
handler reads (line 44). -/
structure UploadApiResult where
  secure_url : String
  public_id : String
deriving Repr, DecidableEq

/-- The options object passed to `cloudinary.uploader.upload`
(src/server.js lines 34-39). -/
structure UploadOptions where
  folder : String
  use_filename : Bool
  unique_filename : Bool
  overwrite : Bool
deriving Repr, DecidableEq

/-- Local filesystem state: the set of paths that currently exist, as a
list. -/
structure FsState where
  existing : List String
deriving Repr, DecidableEq

/-- `fs.unlink(p).catch(() => {})` (line 42): best-effort removal.  When the
underlying unlink fails (`fails = true`) the rejection is swallowed and the
path remains; execution continues either way. -/
def FsState.unlink (fs : FsState) (p : String) (fails : Bool) : FsState :=
  if fails then fs else { existing := fs.existing.filter (fun q => !(q == p)) }

/-- Effects of one run of the upload handler. -/
structure UploadEffects where
  response : HttpResponse
  fs : FsState
  uploadCalls : List (String × UploadOptions)
  log : List String
deriving Repr

/-- `app.post("/upload", ...)` (src/server.js lines 30-49).

* `req.file` absent → 400 `{ error: "No file" }`, no provider call.
* Otherwise `cloudinary.uploader.upload(req.file.path, { folder, use_filename,
  unique_filename, overwrite })` is called; its outcome is `uploadOutcome`.
* On resolution: `await fs.unlink(req.file.path).catch(() => {})`, then
  `res.json({ url: result.secure_url, public_id: result.public_id })`.
* On rejection control jumps to the catch block (line 45), which logs the
  error and sends 500 `{ error: err.message }`; the unlink on line 42 is
  never reached on this path. -/
def uploadHandler (folderScope : String) (req : UploadReq) (fs0 : FsState)
    (uploadOutcome : Except JsError UploadApiResult) (unlinkFails : Bool) :
    UploadEffects :=
  match req.file with
  | none =>
      { response := { status := 400, body := .obj [("error", .str "No file")] },
        fs := fs0, uploadCalls := [], log := [] }
  | some file =>
      let opts : UploadOptions :=
        { folder := folderScope, use_filename := true,
          unique_filename := true, overwrite := false }
      match uploadOutcome with
      | .ok result =>
          { response :=
              { status := 200,
                body := .obj [("url", .str result.secure_url),
                              ("public_id", .str result.public_id)] },
            fs := fs0.unlink file.path unlinkFails,
            uploadCalls := [(file.path, opts)], log := [] }
      | .error err =>
          { response :=
              { status := 500, body := .obj [("error", .str err.message)] },
            fs := fs0,
            uploadCalls := [(file.path, opts)], log := [err.message] }

/-- Effects of one run of the delete handler. -/
structure DeleteEffects where
  response : HttpResponse
  destroyCalls : List String
  log : List String
deriving Repr

/-- `app.delete("/delete/:public_id", ...)` (src/server.js lines 55-64).
The raw path parameter is forwarded unconditionally to
`cloudinary.uploader.destroy`; whatever value the call resolves to is placed
unmodified under the `result` key of the response body (`res.json({ result })`).
On rejection the catch block logs and sends 500 `{ error: err.message }`. -/
def deleteHandler (public_id : String) (destroyOutcome : Except JsError Json) :
    DeleteEffects :=
  match destroyOutcome with
  | .ok result =>
      { response := { status := 200, body := .obj [("result", result)] },
        destroyCalls := [public_id], log := [] }
  | .error err =>
      { response := { status := 500, body := .obj [("error", .str err.message)] },
        destroyCalls := [public_id], log := [err.message] }

/-- A resource in the provider's list response: the six fields the handler
projects out (lines 81-86) plus representative provider-internal fields
(`asset_id`, `bytes`, `resource_type`) present in Cloudinary's richer
response but never copied by the handler. -/
structure CloudinaryResource where
  secure_url : String
  public_id : String
  width : Int
  height : Int
  format : String
  created_at : String
  asset_id : String
  bytes : Int
  resource_type : String
deriving Repr, DecidableEq

/-- The options object passed to `cloudinary.api.resources`
(src/server.js lines 74-78).  `pfx` embeds the `prefix` option (that word is
a reserved token in Lean). -/
structure ResourcesOptions where
  type : String
  pfx : String
  max_results : Int
deriving Repr, DecidableEq

/-- The resolved value of `cloudinary.api.resources`: `response.resources`,
which the handler guards with `(response.resources || [])` — a missing, null
or undefined field is modelled as `none`. -/
structure ResourcesResponse where
  resources : Option (List CloudinaryResource)
deriving Repr, DecidableEq

/-- The per-resource projection `r => ({ url, public_id, width, height,
format, created_at })` of src/server.js lines 80-87. -/
def projectResource (r : CloudinaryResource) : Json :=
  .obj [("url", .str r.secure_url), ("public_id", .str r.public_id),
        ("width", .num r.width), ("height", .num r.height),
        ("format", .str r.format), ("created_at", .str r.created_at)]

/-- Effects of one run of the list handler. -/
structure ImagesEffects where
  response : HttpResponse
  resourcesCalls : List ResourcesOptions
  log : List String
deriving Repr

/-- `app.get("/images", ...)` (src/server.js lines 71-93).  Issues exactly one
`cloudinary.api.resources({ type: "upload", prefix: FOLDER + "/",
max_results: 200 })` call; on resolution maps `(response.resources || [])`
through the six-field projection and sends the array; on rejection the catch
block logs and sends 500 `{ error: err.message }`. -/
def imagesHandler (folderScope : String)
    (listOutcome : Except JsError ResourcesResponse) : ImagesEffects :=
  let opts : ResourcesOptions :=
    { type := "upload", pfx := folderScope ++ "/", max_results := 200 }
  match listOutcome with
  | .ok response =>
      { response :=
          { status := 200,
            body := .arr ((response.resources.getD []).map projectResource) },
        resourcesCalls := [opts], log := [] }
  | .error err =>
      { response := { status := 500, body := .obj [("error", .str err.message)] },
        resourcesCalls := [opts], log := [err.message] }

/-!
## Claims
-/

/-- C1, counterexample: the claim that the staged temporary file is removed on
every exit path is false.  When the remote create-asset call rejects, control
jumps from line 34 straight to the catch block on line 45, skipping the
`fs.unlink` on line 42: here, with the staged file `uploads/tmp-1` present
and the provider call failing, the handler answers 500 while the staged file
still exists afterwards. -/
theorem C1_counterexample :
    (uploadHandler "portfolio-gallery"
        ⟨some ⟨"uploads/tmp-1", "photo.png"⟩⟩ ⟨["uploads/tmp-1"]⟩
        (.error ⟨"upstream failure"⟩) false).response.status = 500
    ∧ ((uploadHandler "portfolio-gallery"
        ⟨some ⟨"uploads/tmp-1", "photo.png"⟩⟩ ⟨["uploads/tmp-1"]⟩
        (.error ⟨"upstream failure"⟩) false).fs.existing.contains
          "uploads/tmp-1") = true := by
  constructor <;> rfl

/-- C1 (amended): the staged temporary file is removed only on the success
exit path.  When the remote create-asset call resolves, the staged file no
longer exists afterwards (when the removal itself succeeds), and a failure of
the removal is swallowed — the response is identical whether the unlink
succeeds or fails, so it is never reported to the client.  When the remote
call rejects, the handler responds without attempting removal and the
filesystem is left unchanged, the staged file still in place. -/
theorem C1_upload_cleanup_amended (folderScope : String) (file : UploadedFile)
    (fs0 : FsState) (result : UploadApiResult) (err : JsError) (b : Bool) :
    ((uploadHandler folderScope ⟨some file⟩ fs0 (.ok result) false).fs.existing.contains
        file.path) = false
    ∧ (uploadHandler folderScope ⟨some file⟩ fs0 (.ok result) b).response.status = 200
    ∧ (uploadHandler folderScope ⟨some file⟩ fs0 (.ok result) b).response.body
        = (uploadHandler folderScope ⟨some file⟩ fs0 (.ok result) false).response.body
    ∧ (uploadHandler folderScope ⟨some file⟩ fs0 (.error err) b).fs = fs0 := by
  refine ⟨?_, by cases b <;> rfl, by cases b <;> rfl, by cases b <;> rfl⟩
  simp [uploadHandler, FsState.unlink, List.contains_eq_any_beq, List.any_filter]

/-- C2: for every identifier string given as the path parameter, when the
remote destroy call resolves the response has status 200 and a `result` field
holding exactly the provider's resolved value, unmodified; and the identifier
is forwarded to the provider verbatim with no local validation (the destroy
call is issued with the raw identifier for every identifier whatsoever). -/
theorem C2_delete_relays_provider_outcome (pid : String) (v : Json)
    (destroyOutcome : Except JsError Json) :
    (deleteHandler pid (.ok v)).response.status = 200
    ∧ (deleteHandler pid (.ok v)).response.body.lookup "result" = some v
    ∧ (deleteHandler pid destroyOutcome).destroyCalls = [pid] := by
  refine ⟨rfl, ?_, by cases destroyOutcome <;> rfl⟩
  simp [deleteHandler, Json.lookup]

/-- C3: whenever a file is present and the remote create-asset call resolves,
the handler responds with a JSON object consisting of exactly the two fields
`url` (the provider's `secure_url`) and `public_id` (the provider's
`public_id`), in that order, regardless of whether the temp-file removal
succeeds. -/
theorem C3_upload_success_body (folderScope : String) (file : UploadedFile)
    (fs0 : FsState) (result : UploadApiResult) (b : Bool) :
    (uploadHandler folderScope ⟨some file⟩ fs0 (.ok result) b).response.status = 200
    ∧ (uploadHandler folderScope ⟨some file⟩ fs0 (.ok result) b).response.body
        = .obj [("url", .str result.secure_url),
                ("public_id", .str result.public_id)]
    ∧ (uploadHandler folderScope ⟨some file⟩ fs0 (.ok result) b).response.body.keys
        = ["url", "public_id"] := by
  cases b <;> exact ⟨rfl, rfl, rfl⟩

/-- C4: a request with no file part gets status 400 with an `error` field in
the body, and no remote provider call is attempted — whatever outcome the
provider would have produced. -/
theorem C4_upload_no_file (folderScope : String) (fs0 : FsState)
    (uploadOutcome : Except JsError UploadApiResult) (b : Bool) :
    (uploadHandler folderScope ⟨none⟩ fs0 uploadOutcome b).response.status = 400
    ∧ ((uploadHandler folderScope ⟨none⟩ fs0 uploadOutcome b).response.body.lookup
        "error").isSome = true
    ∧ (uploadHandler folderScope ⟨none⟩ fs0 uploadOutcome b).uploadCalls = [] := by
  exact ⟨rfl, rfl, rfl⟩

/-- C5: on a successful list call the response body is exactly the provider's
resource list mapped elementwise, in order, through the six-field projection,
and the projection of any resource is an object with exactly the keys `url`,
`public_id`, `width`, `height`, `format`, `created_at` — no extra or
provider-internal field (such as `asset_id`, `bytes` or `resource_type`) is
included. -/
theorem C5_images_projection (folderScope : String)
    (rs : List CloudinaryResource) (r : CloudinaryResource) :
    (imagesHandler folderScope (.ok ⟨some rs⟩)).response.body
      = .arr (rs.map projectResource)
    ∧ (projectResource r).keys
        = ["url", "public_id", "width", "height", "format", "created_at"]
    ∧ (projectResource r).lookup "asset_id" = none
    ∧ (projectResource r).lookup "bytes" = none
    ∧ (projectResource r).lookup "resource_type" = none := by
  refine ⟨rfl, rfl, ?_, ?_, ?_⟩ <;> simp [projectResource, Json.lookup]

/-- C6: the list handler issues exactly one remote list call, requesting
`max_results = 200`, and — given that the provider honours the requested page
size, i.e. returns at most 200 resources — the returned array's length equals
the number of returned resources and never exceeds 200; no further
cursor-following call is made. -/
theorem C6_images_page_bound (folderScope : String)
    (rs : List CloudinaryResource) (hb : rs.length ≤ 200) :
    (imagesHandler folderScope (.ok ⟨some rs⟩)).resourcesCalls
      = [{ type := "upload", pfx := folderScope ++ "/", max_results := 200 }]
    ∧ (imagesHandler folderScope (.ok ⟨some rs⟩)).response.body.arrLen
        = some rs.length
    ∧ rs.length ≤ 200 := by
  refine ⟨rfl, ?_, hb⟩
  simp [imagesHandler, Json.arrLen]

/-- C6, witness. -/
theorem C6_images_page_bound_witness :
    (imagesHandler "portfolio-gallery" (.ok ⟨some []⟩)).resourcesCalls
      = [{ type := "upload", pfx := "portfolio-gallery" ++ "/", max_results := 200 }]
    ∧ (imagesHandler "portfolio-gallery" (.ok ⟨some []⟩)).response.body.arrLen
        = some (List.length ([] : List CloudinaryResource))
    ∧ (List.length ([] : List CloudinaryResource)) ≤ 200 :=
  C6_images_page_bound "portfolio-gallery" [] (by decide)

/-- C7: whenever the remote provider call rejects — for the upload handler
with a file present, the delete handler, and the list handler — the response
has status 500 with body exactly `{ error: err.message }` (the upstream
message relayed verbatim), and the message is logged server-side via
`console.error`. -/
theorem C7_provider_error_500 (folderScope : String) (file : UploadedFile)
    (fs0 : FsState) (pid : String) (err : JsError) (b : Bool) :
    ((uploadHandler folderScope ⟨some file⟩ fs0 (.error err) b).response.status = 500
      ∧ (uploadHandler folderScope ⟨some file⟩ fs0 (.error err) b).response.body
          = .obj [("error", .str err.message)]
      ∧ (uploadHandler folderScope ⟨some file⟩ fs0 (.error err) b).log
          = [err.message])
    ∧ ((deleteHandler pid (.error err)).response.status = 500
      ∧ (deleteHandler pid (.error err)).response.body
          = .obj [("error", .str err.message)]
      ∧ (deleteHandler pid (.error err)).log = [err.message])
    ∧ ((imagesHandler folderScope (.error err)).response.status = 500
      ∧ (imagesHandler folderScope (.error err)).response.body
          = .obj [("error", .str err.message)]
      ∧ (imagesHandler folderScope (.error err)).log = [err.message]) := by
  cases b <;> exact ⟨⟨rfl, rfl, rfl⟩, ⟨rfl, rfl, rfl⟩, ⟨rfl, rfl, rfl⟩⟩

/-- C8: every create-asset call issued by the upload handler carries
`folder = FOLDER`, and every list call issued by the list handler filters on
the prefix `FOLDER + "/"`, for any environment configuration; and with no
`FOLDER_NAME` configured the scope defaults to `"portfolio-gallery"`. -/
theorem C8_folder_scope (env : Option String) (req : UploadReq) (fs0 : FsState)
    (uploadOutcome : Except JsError UploadApiResult) (b : Bool)
    (listOutcome : Except JsError ResourcesResponse) :
    ((uploadHandler (FOLDER env) req fs0 uploadOutcome b).uploadCalls.all
        (fun c => c.2.folder == FOLDER env)) = true
    ∧ ((imagesHandler (FOLDER env) listOutcome).resourcesCalls.all
        (fun c => c.pfx == FOLDER env ++ "/")) = true
    ∧ FOLDER none = "portfolio-gallery" := by
  refine ⟨?_, ?_, rfl⟩
  · rcases req with ⟨_ | f⟩ <;> rcases uploadOutcome with e | r <;>
      simp [uploadHandler]
  · rcases listOutcome with e | r <;> simp [imagesHandler]

/-- C9: every create-asset call issued by the upload handler carries exactly
the flags `use_filename = true` (preserve the original filename as a naming
hint), `unique_filename = true` (generate a unique identifier to avoid
collisions) and `overwrite = false` (never overwrite an existing asset with
the same derived name). -/
theorem C9_upload_flags (folderScope : String) (req : UploadReq)
    (fs0 : FsState) (uploadOutcome : Except JsError UploadApiResult)
    (b : Bool) :
    ((uploadHandler folderScope req fs0 uploadOutcome b).uploadCalls.all
        (fun c => c.2.use_filename && c.2.unique_filename && !c.2.overwrite))
      = true := by
  rcases req with ⟨_ | f⟩ <;> rcases uploadOutcome with e | r <;>
    simp [uploadHandler]

/-- C10: when the provider's list response resolves but carries no
`resources` field (null, undefined or absent), the handler responds with
status 200 and an empty JSON array, not an error. -/
theorem C10_images_missing_resources (folderScope : String) :
    (imagesHandler folderScope (.ok ⟨none⟩)).response.status = 200
    ∧ (imagesHandler folderScope (.ok ⟨none⟩)).response.body = .arr [] := by
  exact ⟨rfl, rfl⟩
